import Mathlib

/-
Verification of the oci_config_writer library (src/src/lib.rs and
src/src/account.rs) against its natural-language specification.

The embedding models the filesystem explicitly: a `Sys` value carries the
process's current working directory, the (optional) user home directory,
the file contents, and a set of paths on which a low-level write call
fails (to model disk-level write errors).  Paths are lists of path
components, so `<home>/.oci/config` is `home ++ [".oci", "config"]`.

Rust `panic!`/`unwrap` aborts are modelled as `Except.error` carrying a
`RunPanic` value, distinct from any value returned to the caller; `println!`
diagnostics are modelled as a log of `Msg` values.

The modules `file`, `region` and `log` declared in lib.rs are not present
under src/; the functions `create`, `permissions`, `read` and `identifier`
are therefore modelled from the specification (each such definition says so
in its doc comment).  Everything else is translated from the Rust source.
-/

namespace OciConfigWriter

/-- A path is a list of path components. -/
abbrev Path := List String

/-- The ambient system state: current working directory, optional home
directory, file contents, and the set of paths whose low-level writes fail
(modelling disk-level I/O errors on an open file). -/
structure Sys where
  cwd : Path
  home : Option Path
  files : Path → Option String
  failWrites : List Path

/-- Diagnostic messages printed by the library (println!/eprintln!). -/
inductive Msg where
  | tenancyWritten
  | tenancyWriteFailed
  | openFailed
  | userDataWritten
  | userWriteFailed
  | adminOpenFailed
  | profileWritten (path : Path)
  | profileWriteError
  | reportContent (text : String)
  | readFailed
deriving DecidableEq, Repr

/-- A Rust panic (process abort), as produced by `Option::unwrap` on `None`
when home-directory resolution fails.  This is an abort, not a value
returned to the caller. -/
inductive RunPanic where
  | unwrapNoneHome
deriving DecidableEq, Repr

/-- Replace the content of the file at `p` (creating it if absent). -/
def Sys.setFile (s : Sys) (p : Path) (c : String) : Sys :=
  { s with files := fun q => if q = p then some c else s.files q }

/-- Content of the file at `p`, empty string if the file is absent. -/
def contentOf (p : Path) (s : Sys) : String :=
  (s.files p).getD ""

/-- lib.rs: `static DIR: &str = ".oci";` -/
def DIR : String := ".oci"

/-- lib.rs: `static NAME: &str = "config";` -/
def NAME : String := "config"

/-- The relative path `.oci/config` built by `profile`/`credentials`/`report`. -/
def relConfig : Path := [DIR, NAME]

/-- lib.rs: the `Profile` struct (user, fingerprint, key_file, tenancy,
resolved region). -/
structure Profile where
  user : String
  fingerprint : String
  key_file : String
  tenancy : String
  region : String

/-- lib.rs `Profile::profile_entry`: the format! template
`"[DEFAULT]\nuser: {}\nfingerprint: {}\nkey_file: {}\ntenancy: {}\nregion: {}\n\n"`. -/
def Profile.profile_entry (p : Profile) : String :=
  "[DEFAULT]\nuser: " ++ p.user ++ "\nfingerprint: " ++ p.fingerprint ++
    "\nkey_file: " ++ p.key_file ++ "\ntenancy: " ++ p.tenancy ++
    "\nregion: " ++ p.region ++ "\n\n"

/-- account.rs `admin`: the format! template
`"[ADMIN_USER]\nuser={}\nfingerprint={}\nkey_file={}\npass_phrase={}\n\n"`. -/
def admin_entry (user fingerprint key_file pass_phrase : String) : String :=
  "[ADMIN_USER]\nuser=" ++ user ++ "\nfingerprint=" ++ fingerprint ++
    "\nkey_file=" ++ key_file ++ "\npass_phrase=" ++ pass_phrase ++ "\n\n"

/-- Modelled from the spec: the `region` module is not under src/.  The
Region Resolver is a static exact-match, case-sensitive table from short
region code to canonical identifier (the spec names IAD -> us-ashburn-1);
unrecognized codes pass through unchanged (the spec's leniency policy). -/
def regionTable : List (String × String) := [("IAD", "us-ashburn-1")]

/-- Modelled from the spec: `region::identifier`, table lookup with
passthrough for unmatched codes. -/
def identifier (code : String) : String :=
  match regionTable.lookup code with
  | some r => r
  | none => code

/-- Modelled from the spec: `file::create` (File Guard) is not under src/.
Given a directory name and file name, resolved against the current working
directory, it verifies existence and, if the file is absent, creates the
directory and an empty file there.  Directory entries are not tracked
separately since no claim depends on them. -/
def create (dir name : String) (s : Sys) : Sys :=
  let p := s.cwd ++ [dir, name]
  match s.files p with
  | none => s.setFile p ""
  | some _ => s

/-- Modelled from the spec: `file::permissions` (File Guard) is not under
src/.  It narrows the permission mode bits of an existing file; file
contents are unchanged.  Permission bits are not tracked since no claim
depends on their value. -/
def permissions (_path : Path) (s : Sys) : Sys := s

/-- Modelled from the spec: `file::read` (Config Reader) is not under src/.
It reads the entire file at the given path (a relative path resolves
against the current working directory) and prints/returns its content as
text; a missing file is reported, with no partial-read semantics. -/
def read (path : Path) (s : Sys) : Option String × List Msg :=
  match s.files (s.cwd ++ path) with
  | some c => (some c, [Msg.reportContent c])
  | none => (none, [Msg.readFailed])

/-- lib.rs `Profile::write_to_config`: joins the user's home directory
(`UserDirs::new().unwrap().home_dir()`, a panic when home resolution fails)
with `path`, opens with write+append (no create semantics: the open fails
when the file is absent), writes the whole profile entry with one
`write_all` call, reports open/write errors via println!, and returns
`Ok(())` regardless. -/
def write_to_config (p : Profile) (path : Path) (s : Sys) :
    Except RunPanic Unit × Sys × List Msg :=
  match s.home with
  | none => (Except.error RunPanic.unwrapNoneHome, s, [])
  | some h =>
    let config_path := h ++ path
    match s.files config_path with
    | none => (Except.ok (), s, [Msg.openFailed])
    | some content =>
      if config_path ∈ s.failWrites then
        (Except.ok (), s, [Msg.tenancyWriteFailed])
      else
        (Except.ok (), s.setFile config_path (content ++ p.profile_entry),
          [Msg.tenancyWritten])

/-- lib.rs `profile`: the branch condition `!path.exists()`, where `path`
is the relative `PathBuf` `.oci/config`, which the OS resolves against the
process's current working directory. -/
def profileCreates (s : Sys) : Bool :=
  (s.files (s.cwd ++ relConfig)).isNone

/-- lib.rs `profile`: builds the `Profile` with the resolved region, then
either creates `.oci/config` (when the CWD-relative path does not exist) or
normalizes its permissions, and in both branches calls `write_to_config`
with the relative path `.oci/config`. -/
def profile (user fingerprint key_file tenancy home : String) (s : Sys) :
    Except RunPanic Unit × Sys × List Msg :=
  let default_profile : Profile :=
    { user := user, fingerprint := fingerprint, key_file := key_file,
      tenancy := tenancy, region := identifier home }
  if profileCreates s then
    let s1 := create DIR NAME s
    match write_to_config default_profile relConfig s1 with
    | (Except.error e, s2, log) => (Except.error e, s2, log)
    | (Except.ok _, s2, log) =>
      (Except.ok (), s2, log ++ [Msg.profileWritten relConfig])
  else
    let s1 := permissions relConfig s
    match write_to_config default_profile relConfig s1 with
    | (Except.error e, s2, log) => (Except.error e, s2, log)
    | (Except.ok _, s2, log) =>
      (Except.ok (), s2, log ++ [Msg.profileWritten relConfig])

/-- account.rs `admin`: joins the home directory (unwrap: panic on missing
home) with `.ocloud/config`, opens with write+append (no create), writes
the whole `[ADMIN_USER]` block with one `write_all` call, reports errors
via println!, returns unit. -/
def admin (user fingerprint key_file pass_phrase : String) (s : Sys) :
    Except RunPanic Unit × Sys × List Msg :=
  match s.home with
  | none => (Except.error RunPanic.unwrapNoneHome, s, [])
  | some h =>
    let config_path := h ++ [".ocloud", "config"]
    match s.files config_path with
    | none => (Except.ok (), s, [Msg.adminOpenFailed])
    | some content =>
      if config_path ∈ s.failWrites then
        (Except.ok (), s, [Msg.userWriteFailed])
      else
        (Except.ok (),
          s.setFile config_path
            (content ++ admin_entry user fingerprint key_file pass_phrase),
          [Msg.userDataWritten])

/-- lib.rs `credentials`: normalizes permissions of `.oci/config` (relative
path), then calls `account::admin`. -/
def credentials (user fingerprint key_file pass_phrase : String) (s : Sys) :
    Except RunPanic Unit × Sys × List Msg :=
  let s1 := permissions relConfig s
  admin user fingerprint key_file pass_phrase s1

/-- lib.rs `report`: builds the relative path `.oci/config`, calls
`file::read` on it, discards its value, and returns unit. -/
def report (s : Sys) : Unit × Sys × List Msg :=
  let r := read relConfig s
  ((), s, r.2)

/-- A key/value text block exactly as the spec's file-format section words
it: a header line, then one line per pair of the form key, separator,
value, then a terminating blank line. -/
def specKVBlock (header sep : String) (pairs : List (String × String)) : String :=
  header ++ "\n" ++
    String.join (pairs.map (fun kv => kv.1 ++ sep ++ kv.2 ++ "\n")) ++ "\n"

theorem contentOf_setFile (s : Sys) (p q : Path) (c : String) :
    contentOf q (s.setFile p c) = if q = p then c else contentOf q s := by
  by_cases hq : q = p <;> simp [contentOf, Sys.setFile, hq]

theorem cwd_setFile (s : Sys) (p : Path) (c : String) :
    (s.setFile p c).cwd = s.cwd := rfl

theorem home_setFile (s : Sys) (p : Path) (c : String) :
    (s.setFile p c).home = s.home := rfl

theorem failWrites_setFile (s : Sys) (p : Path) (c : String) :
    (s.setFile p c).failWrites = s.failWrites := rfl

/-- `create` never changes observed file content: it only turns an absent
file into an empty one. -/
theorem contentOf_create (d n : String) (s : Sys) (q : Path) :
    contentOf q (create d n s) = contentOf q s := by
  simp only [create]
  cases hf : s.files (s.cwd ++ [d, n]) with
  | none =>
    rw [contentOf_setFile]
    by_cases hq : q = s.cwd ++ [d, n]
    · simp [contentOf, hq, hf]
    · simp [hq]
  | some c => rfl

theorem files_create_other (d n : String) (s : Sys) (q : Path)
    (hq : q ≠ s.cwd ++ [d, n]) : (create d n s).files q = s.files q := by
  simp only [create]
  cases s.files (s.cwd ++ [d, n]) with
  | none => simp [Sys.setFile, hq]
  | some _ => rfl

theorem create_absent (d n : String) (s : Sys)
    (hf : s.files (s.cwd ++ [d, n]) = none) :
    create d n s = s.setFile (s.cwd ++ [d, n]) "" := by
  simp [create, hf]

theorem create_present (d n : String) (s : Sys) (c : String)
    (hf : s.files (s.cwd ++ [d, n]) = some c) :
    create d n s = s := by
  simp [create, hf]

theorem cwd_create (d n : String) (s : Sys) : (create d n s).cwd = s.cwd := by
  simp only [create]
  cases s.files (s.cwd ++ [d, n]) <;> rfl

theorem home_create (d n : String) (s : Sys) : (create d n s).home = s.home := by
  simp only [create]
  cases s.files (s.cwd ++ [d, n]) <;> rfl

theorem failWrites_create (d n : String) (s : Sys) :
    (create d n s).failWrites = s.failWrites := by
  simp only [create]
  cases s.files (s.cwd ++ [d, n]) <;> rfl

theorem write_to_config_panic (p : Profile) (path : Path) (s : Sys)
    (hh : s.home = none) :
    write_to_config p path s = (Except.error RunPanic.unwrapNoneHome, s, []) := by
  simp [write_to_config, hh]

theorem write_to_config_absent (p : Profile) (path : Path) (s : Sys) (h : Path)
    (hh : s.home = some h) (hf : s.files (h ++ path) = none) :
    write_to_config p path s = (Except.ok (), s, [Msg.openFailed]) := by
  simp [write_to_config, hh, hf]

theorem write_to_config_failWrite (p : Profile) (path : Path) (s : Sys)
    (h : Path) (c : String) (hh : s.home = some h)
    (hf : s.files (h ++ path) = some c) (hw : (h ++ path) ∈ s.failWrites) :
    write_to_config p path s = (Except.ok (), s, [Msg.tenancyWriteFailed]) := by
  simp [write_to_config, hh, hf, hw]

theorem write_to_config_appends (p : Profile) (path : Path) (s : Sys)
    (h : Path) (c : String) (hh : s.home = some h)
    (hf : s.files (h ++ path) = some c) (hw : (h ++ path) ∉ s.failWrites) :
    write_to_config p path s =
      (Except.ok (), s.setFile (h ++ path) (c ++ p.profile_entry),
        [Msg.tenancyWritten]) := by
  simp [write_to_config, hh, hf, hw]

theorem admin_panic (u f k pp : String) (s : Sys) (hh : s.home = none) :
    admin u f k pp s = (Except.error RunPanic.unwrapNoneHome, s, []) := by
  simp [admin, hh]

theorem admin_absent (u f k pp : String) (s : Sys) (h : Path)
    (hh : s.home = some h) (hf : s.files (h ++ [".ocloud", "config"]) = none) :
    admin u f k pp s = (Except.ok (), s, [Msg.adminOpenFailed]) := by
  simp [admin, hh, hf]

theorem admin_failWrite (u f k pp : String) (s : Sys) (h : Path) (c : String)
    (hh : s.home = some h) (hf : s.files (h ++ [".ocloud", "config"]) = some c)
    (hw : (h ++ [".ocloud", "config"]) ∈ s.failWrites) :
    admin u f k pp s = (Except.ok (), s, [Msg.userWriteFailed]) := by
  simp [admin, hh, hf, hw]

theorem admin_appends (u f k pp : String) (s : Sys) (h : Path) (c : String)
    (hh : s.home = some h) (hf : s.files (h ++ [".ocloud", "config"]) = some c)
    (hw : (h ++ [".ocloud", "config"]) ∉ s.failWrites) :
    admin u f k pp s =
      (Except.ok (),
        s.setFile (h ++ [".ocloud", "config"]) (c ++ admin_entry u f k pp),
        [Msg.userDataWritten]) := by
  simp [admin, hh, hf, hw]

/-- The system state `profile` leaves behind is the one `write_to_config`
produces, started from the guarded state (create when the CWD-relative
path is absent, permission normalization otherwise). -/
theorem profile_sys (u f k t c : String) (s : Sys) :
    (profile u f k t c s).2.1 =
      (write_to_config ⟨u, f, k, t, identifier c⟩ relConfig
        (if profileCreates s then create DIR NAME s else s)).2.1 := by
  by_cases hb : profileCreates s
  · simp only [profile, hb, if_true]
    rcases hw : write_to_config ⟨u, f, k, t, identifier c⟩ relConfig
      (create DIR NAME s) with ⟨e, s2, log⟩
    cases e <;> simp [hw]
  · simp only [profile, hb, if_false, permissions]
    rcases hw : write_to_config ⟨u, f, k, t, identifier c⟩ relConfig s
      with ⟨e, s2, log⟩
    cases e <;> simp [hw]

/-- `credentials` is `admin` preceded by the (content-preserving)
permission normalization. -/
theorem credentials_eq_admin (u f k pp : String) (s : Sys) :
    credentials u f k pp s = admin u f k pp s := rfl

/-- Whatever happens inside `write_to_config`, the old content of every
file is a prefix of its new content. -/
theorem write_to_config_extends (p : Profile) (path : Path) (s : Sys)
    (q : Path) :
    ∃ rest, contentOf q (write_to_config p path s).2.1 = contentOf q s ++ rest := by
  cases hh : s.home with
  | none =>
    exact ⟨"", by rw [write_to_config_panic p path s hh]; simp⟩
  | some h =>
    cases hf : s.files (h ++ path) with
    | none =>
      exact ⟨"", by rw [write_to_config_absent p path s h hh hf]; simp⟩
    | some c =>
      by_cases hw : (h ++ path) ∈ s.failWrites
      · exact ⟨"", by rw [write_to_config_failWrite p path s h c hh hf hw]; simp⟩
      · rw [write_to_config_appends p path s h c hh hf hw]
        by_cases hq : q = h ++ path
        · refine ⟨p.profile_entry, ?_⟩
          rw [contentOf_setFile]
          simp [hq, contentOf, hf]
        · exact ⟨"", by rw [contentOf_setFile]; simp [hq]⟩

/-- Whatever happens inside `admin`, the old content of every file is a
prefix of its new content. -/
theorem admin_extends (u f k pp : String) (s : Sys) (q : Path) :
    ∃ rest, contentOf q (admin u f k pp s).2.1 = contentOf q s ++ rest := by
  cases hh : s.home with
  | none =>
    exact ⟨"", by rw [admin_panic u f k pp s hh]; simp⟩
  | some h =>
    cases hf : s.files (h ++ [".ocloud", "config"]) with
    | none =>
      exact ⟨"", by rw [admin_absent u f k pp s h hh hf]; simp⟩
    | some c =>
      by_cases hw : (h ++ [".ocloud", "config"]) ∈ s.failWrites
      · exact ⟨"", by rw [admin_failWrite u f k pp s h c hh hf hw]; simp⟩
      · rw [admin_appends u f k pp s h c hh hf hw]
        by_cases hq : q = h ++ [".ocloud", "config"]
        · refine ⟨admin_entry u f k pp, ?_⟩
          rw [contentOf_setFile]
          simp [hq, contentOf, hf]
        · exact ⟨"", by rw [contentOf_setFile]; simp [hq]⟩

/-- Whatever happens inside `profile`, the old content of every file is a
prefix of its new content. -/
theorem profile_extends (u f k t c : String) (s : Sys) (q : Path) :
    ∃ rest, contentOf q (profile u f k t c s).2.1 = contentOf q s ++ rest := by
  rw [profile_sys]
  by_cases hb : profileCreates s
  · rw [if_pos hb]
    obtain ⟨rest, hrest⟩ :=
      write_to_config_extends ⟨u, f, k, t, identifier c⟩ relConfig
        (create DIR NAME s) q
    exact ⟨rest, by rw [hrest, contentOf_create]⟩
  · rw [if_neg hb]
    exact write_to_config_extends ⟨u, f, k, t, identifier c⟩ relConfig s q

/-- One full `profile` run in the intended configuration (process started
from the home directory, no disk-level write fault): the block is appended
at `<home>/.oci/config`, and cwd, home and the fault set are untouched. -/
theorem profile_step (u f k t c : String) (s : Sys) (h : Path)
    (hh : s.home = some h) (hcwd : s.cwd = h)
    (hw : (h ++ relConfig) ∉ s.failWrites) :
    (profile u f k t c s).2.1.files (h ++ relConfig)
        = some (contentOf (h ++ relConfig) s
            ++ (Profile.mk u f k t (identifier c)).profile_entry)
      ∧ (profile u f k t c s).2.1.cwd = h
      ∧ (profile u f k t c s).2.1.home = some h
      ∧ (profile u f k t c s).2.1.failWrites = s.failWrites := by
  rw [profile_sys]
  by_cases hb : profileCreates s
  · rw [if_pos hb]
    have hf : s.files (h ++ relConfig) = none := by
      simpa [profileCreates, hcwd, Option.isNone_iff_eq_none] using hb
    have hcr : create DIR NAME s = s.setFile (h ++ relConfig) "" := by
      have := create_absent DIR NAME s (by rw [hcwd]; exact hf)
      rwa [hcwd] at this
    rw [hcr]
    rw [write_to_config_appends _ relConfig _ h ""
      (by rw [home_setFile]; exact hh)
      (by rw [Sys.setFile]; simp)
      (by rw [failWrites_setFile]; exact hw)]
    refine ⟨?_, ?_, ?_, ?_⟩
    · simp [Sys.setFile, contentOf, hf]
    · simp [Sys.setFile, hcwd]
    · simp [Sys.setFile, hh]
    · simp [Sys.setFile]
  · rw [if_neg hb]
    have hf : ∃ c0, s.files (h ++ relConfig) = some c0 := by
      have : ¬ (s.files (h ++ relConfig)).isNone = true := by
        simpa [profileCreates, hcwd] using hb
      cases hc : s.files (h ++ relConfig) with
      | none => exact absurd (by simp [hc]) this
      | some c0 => exact ⟨c0, rfl⟩
    obtain ⟨c0, hf⟩ := hf
    rw [write_to_config_appends _ relConfig _ h c0 hh hf hw]
    refine ⟨?_, ?_, ?_, ?_⟩
    · simp [Sys.setFile, contentOf, hf]
    · simp [Sys.setFile, hcwd]
    · simp [Sys.setFile, hh]
    · simp [Sys.setFile]

/-- Whenever `<home>/.oci/config` exists and is not write-faulted,
`profile` appends exactly its profile entry there, regardless of which
branch the CWD-relative existence test selects. -/
theorem profile_appends_home (u f k t c : String) (s : Sys) (h : Path)
    (c0 : String) (hh : s.home = some h)
    (hf : s.files (h ++ relConfig) = some c0)
    (hw : (h ++ relConfig) ∉ s.failWrites) :
    contentOf (h ++ relConfig) (profile u f k t c s).2.1
      = c0 ++ (Profile.mk u f k t (identifier c)).profile_entry := by
  rw [profile_sys]
  by_cases hb : profileCreates s
  · rw [if_pos hb]
    have hfc : s.files (s.cwd ++ [DIR, NAME]) = none := by
      simpa [profileCreates, Option.isNone_iff_eq_none] using hb
    have hne : h ++ relConfig ≠ s.cwd ++ [DIR, NAME] := by
      intro he
      rw [he, hfc] at hf
      exact Option.noConfusion hf
    have hf1 : (create DIR NAME s).files (h ++ relConfig) = some c0 := by
      rw [files_create_other DIR NAME s _ hne]
      exact hf
    rw [write_to_config_appends _ relConfig _ h c0
      (by rw [home_create]; exact hh) hf1
      (by rw [failWrites_create]; exact hw)]
    simp [contentOf_setFile]
  · rw [if_neg hb]
    rw [write_to_config_appends _ relConfig _ h c0 hh hf hw]
    simp [contentOf_setFile]

/-- `admin` (hence `credentials`) in a faultless state appends its
credential block at `<home>/.ocloud/config` and changes no other file. -/
theorem admin_step (u f k pp : String) (s : Sys) (h : Path) (c0 : String)
    (hh : s.home = some h)
    (hf : s.files (h ++ [".ocloud", "config"]) = some c0)
    (hw : (h ++ [".ocloud", "config"]) ∉ s.failWrites) :
    contentOf (h ++ [".ocloud", "config"]) (admin u f k pp s).2.1
        = c0 ++ admin_entry u f k pp
      ∧ ∀ q, q ≠ h ++ [".ocloud", "config"] →
          (admin u f k pp s).2.1.files q = s.files q := by
  rw [admin_appends u f k pp s h c0 hh hf hw]
  constructor
  · simp [contentOf_setFile]
  · intro q hq
    simp [Sys.setFile, hq]

/-- Claim C5: for every Profile record, the serialized profile block is a
`[DEFAULT]` header line followed by exactly five `key: value` lines in the
order user, fingerprint, key_file, tenancy, region, terminated by a
trailing blank line. -/
theorem profile_entry_is_spec_block (p : Profile) :
    p.profile_entry = specKVBlock "[DEFAULT]" ": "
      [("user", p.user), ("fingerprint", p.fingerprint),
        ("key_file", p.key_file), ("tenancy", p.tenancy),
        ("region", p.region)] := by
  cases p
  simp only [Profile.profile_entry, specKVBlock, String.join, List.map,
    List.foldl, String.append_assoc]
  rfl

/-- Claim C6: for every call of credentials, the serialized credential
block is an `[ADMIN_USER]` header line followed by exactly four
`key=value` lines (with `=` separators, not `: `) in the order user,
fingerprint, key_file, pass_phrase, terminated by a trailing blank line. -/
theorem admin_entry_is_spec_block (u f k pp : String) :
    admin_entry u f k pp = specKVBlock "[ADMIN_USER]" "="
      [("user", u), ("fingerprint", f), ("key_file", k),
        ("pass_phrase", pp)] := by
  simp only [admin_entry, specKVBlock, String.join, List.map, List.foldl,
    String.append_assoc]
  rfl

/-- Claim C3: for every Profile record and target path (given that home
resolution succeeds, which the claim presupposes by speaking of open/write
failures), the config-writing operation returns Ok; an open failure or a
write failure is only reported as a diagnostic message. -/
theorem write_to_config_always_ok (p : Profile) (path : Path) (s : Sys)
    (h : Path) (hh : s.home = some h) :
    (write_to_config p path s).1 = Except.ok ()
      ∧ (s.files (h ++ path) = none →
          write_to_config p path s = (Except.ok (), s, [Msg.openFailed]))
      ∧ (∀ c, s.files (h ++ path) = some c → (h ++ path) ∈ s.failWrites →
          write_to_config p path s
            = (Except.ok (), s, [Msg.tenancyWriteFailed])) := by
  refine ⟨?_, ?_, ?_⟩
  · cases hf : s.files (h ++ path) with
    | none => rw [write_to_config_absent p path s h hh hf]
    | some c =>
      by_cases hw : (h ++ path) ∈ s.failWrites
      · rw [write_to_config_failWrite p path s h c hh hf hw]
      · rw [write_to_config_appends p path s h c hh hf hw]
  · intro hf
    exact write_to_config_absent p path s h hh hf
  · intro c hf hw
    exact write_to_config_failWrite p path s h c hh hf hw

/-- Claim C3 witness: a concrete run in which the open fails (the target
file is absent) and the result is still Ok with a diagnostic. -/
theorem write_to_config_always_ok_witness :
    (Sys.mk ["h"] (some ["h"]) (fun _ => none) []).home = some ["h"]
      ∧ ((write_to_config ⟨"u", "f", "k", "t", "r"⟩ relConfig
            (Sys.mk ["h"] (some ["h"]) (fun _ => none) [])).1 = Except.ok ()
        ∧ ((Sys.mk ["h"] (some ["h"]) (fun _ => none) []).files
              (["h"] ++ relConfig) = none →
            write_to_config ⟨"u", "f", "k", "t", "r"⟩ relConfig
                (Sys.mk ["h"] (some ["h"]) (fun _ => none) [])
              = (Except.ok (), Sys.mk ["h"] (some ["h"]) (fun _ => none) [],
                  [Msg.openFailed]))
        ∧ (∀ c, (Sys.mk ["h"] (some ["h"]) (fun _ => none) []).files
              (["h"] ++ relConfig) = some c →
            (["h"] ++ relConfig)
                ∈ (Sys.mk ["h"] (some ["h"]) (fun _ => none) []).failWrites →
            write_to_config ⟨"u", "f", "k", "t", "r"⟩ relConfig
                (Sys.mk ["h"] (some ["h"]) (fun _ => none) [])
              = (Except.ok (), Sys.mk ["h"] (some ["h"]) (fun _ => none) [],
                  [Msg.tenancyWriteFailed]))) :=
  ⟨rfl, write_to_config_always_ok ⟨"u", "f", "k", "t", "r"⟩ relConfig
    (Sys.mk ["h"] (some ["h"]) (fun _ => none) []) ["h"] rfl⟩

/-- Claim C9: the writer opens the target with write-or-append and no
create semantics, so when the target file is absent the open fails, no
bytes are written and the file system is unchanged; when the open and the
single write call succeed, the whole block is appended in one step. -/
theorem write_to_config_no_create (p : Profile) (path : Path) (s : Sys)
    (h : Path) (hh : s.home = some h) :
    (s.files (h ++ path) = none →
        (write_to_config p path s).2.1 = s
          ∧ (write_to_config p path s).2.2 = [Msg.openFailed])
      ∧ (∀ c, s.files (h ++ path) = some c → (h ++ path) ∉ s.failWrites →
          (write_to_config p path s).2.1
            = s.setFile (h ++ path) (c ++ p.profile_entry)) := by
  constructor
  · intro hf
    rw [write_to_config_absent p path s h hh hf]
    exact ⟨rfl, rfl⟩
  · intro c hf hw
    rw [write_to_config_appends p path s h c hh hf hw]

/-- Claim C9 witness: with the target absent, a concrete run leaves the
file system untouched. -/
theorem write_to_config_no_create_witness :
    (Sys.mk ["w"] (some ["h"]) (fun _ => none) []).home = some ["h"]
      ∧ (((Sys.mk ["w"] (some ["h"]) (fun _ => none) []).files
              (["h"] ++ relConfig) = none →
            (write_to_config ⟨"u", "f", "k", "t", "r"⟩ relConfig
                (Sys.mk ["w"] (some ["h"]) (fun _ => none) [])).2.1
              = Sys.mk ["w"] (some ["h"]) (fun _ => none) []
              ∧ (write_to_config ⟨"u", "f", "k", "t", "r"⟩ relConfig
                  (Sys.mk ["w"] (some ["h"]) (fun _ => none) [])).2.2
                = [Msg.openFailed])
        ∧ (∀ c, (Sys.mk ["w"] (some ["h"]) (fun _ => none) []).files
              (["h"] ++ relConfig) = some c →
            (["h"] ++ relConfig)
                ∉ (Sys.mk ["w"] (some ["h"]) (fun _ => none) []).failWrites →
            (write_to_config ⟨"u", "f", "k", "t", "r"⟩ relConfig
                (Sys.mk ["w"] (some ["h"]) (fun _ => none) [])).2.1
              = (Sys.mk ["w"] (some ["h"]) (fun _ => none) []).setFile
                  (["h"] ++ relConfig)
                  (c ++ Profile.profile_entry ⟨"u", "f", "k", "t", "r"⟩))) :=
  ⟨rfl, write_to_config_no_create ⟨"u", "f", "k", "t", "r"⟩ relConfig
    (Sys.mk ["w"] (some ["h"]) (fun _ => none) []) ["h"] rfl⟩

/-- A concrete state run from the home directory `/h`, with both
`<home>/.oci/config` and `<home>/.ocloud/config` present and empty. -/
def sysC1 : Sys :=
  Sys.mk ["h"] (some ["h"])
    (fun q => if q = ["h", ".oci", "config"] then some ""
      else if q = ["h", ".ocloud", "config"] then some "" else none) []

/-- Claim C1: evaluating `credentials` at a concrete state shows the
credential block does not land in `<home>/.oci/config`: that file is left
unchanged (still empty) while the `[ADMIN_USER]` block is appended to
`<home>/.ocloud/config`, the path hard-coded in `account::admin`. -/
theorem credentials_writes_to_ocloud :
    contentOf (["h"] ++ relConfig) (credentials "u" "f" "k" "p" sysC1).2.1 = ""
      ∧ contentOf (["h"] ++ [".ocloud", "config"])
          (credentials "u" "f" "k" "p" sysC1).2.1
        = admin_entry "u" "f" "k" "p"
      ∧ (credentials "u" "f" "k" "p" sysC1).2.1.files (["h"] ++ relConfig)
          = sysC1.files (["h"] ++ relConfig) := by
  refine ⟨?_, ?_, ?_⟩ <;> rfl

/-- A concrete state in which home-directory resolution fails. -/
def sysNoHome : Sys := Sys.mk ["w"] none (fun _ => none) []

/-- Claim C4 counterexample: with no resolvable home directory, both
`profile` and `credentials` abort through the unchecked `unwrap` (a Rust
panic, modelled as `RunPanic.unwrapNoneHome`); no typed error is returned
to the caller. -/
theorem missing_home_panics_concrete :
    (profile "u" "f" "k" "t" "IAD" sysNoHome).1
        = Except.error RunPanic.unwrapNoneHome
      ∧ (credentials "u" "f" "k" "p" sysNoHome).1
        = Except.error RunPanic.unwrapNoneHome :=
  ⟨rfl, rfl⟩

/-- Claim C4 as amended: if home-directory resolution fails, `profile` and
`credentials` abort via the panic of the unchecked `unwrap`; the failure is
a process abort, not a typed error value returned to the caller. -/
theorem missing_home_panics (u f k t c uu ff kk pp : String) (s : Sys)
    (hh : s.home = none) :
    (profile u f k t c s).1 = Except.error RunPanic.unwrapNoneHome
      ∧ (credentials uu ff kk pp s).1
        = Except.error RunPanic.unwrapNoneHome := by
  constructor
  · by_cases hb : profileCreates s
    · simp only [profile, hb, if_true]
      rw [write_to_config_panic _ relConfig (create DIR NAME s)
        (by rw [home_create]; exact hh)]
    · simp only [profile, hb, if_false, permissions]
      rw [write_to_config_panic _ relConfig s hh]
      rfl
  · rw [credentials_eq_admin, admin_panic uu ff kk pp s hh]

/-- Claim C4 witness: the amended panic behavior at a concrete state. -/
theorem missing_home_panics_witness :
    sysNoHome.home = none
      ∧ ((profile "uu" "ff" "kk" "tt" "FRA" sysNoHome).1
            = Except.error RunPanic.unwrapNoneHome
        ∧ (credentials "cu" "cf" "ck" "cp" sysNoHome).1
            = Except.error RunPanic.unwrapNoneHome) :=
  ⟨rfl, missing_home_panics "uu" "ff" "kk" "tt" "FRA" "cu" "cf" "ck" "cp"
    sysNoHome rfl⟩

/-- Claim C8: `report` slurps the whole file at the CWD-resolved
`.oci/config` and emits its entire content in one piece; its returned
value, however, is the unit value (the text only reaches the diagnostics,
matching the code, which discards the result of `read`). -/
theorem report_reads_whole_file (s : Sys) (c : String)
    (hf : s.files (s.cwd ++ relConfig) = some c) :
    report s = ((), s, [Msg.reportContent c]) := by
  simp [report, read, hf]

/-- A concrete state whose config file holds the text "abc". -/
def sysC8 : Sys :=
  Sys.mk ["h"] (some ["h"])
    (fun q => if q = ["h", ".oci", "config"] then some "abc" else none) []

/-- Claim C8 witness: the whole-file read at a concrete state. -/
theorem report_reads_whole_file_witness :
    sysC8.files (sysC8.cwd ++ relConfig) = some "abc"
      ∧ report sysC8 = ((), sysC8, [Msg.reportContent "abc"]) :=
  ⟨rfl, report_reads_whole_file sysC8 "abc" rfl⟩

/-- Claim C2: started from the home directory (so that the CWD-resolved
existence test, the home-resolved append, and the CWD-resolved read all
name the same file) with no disk-level write fault, `profile(...)` followed
by `report()` emits text ending in the `[DEFAULT]` block whose five fields
are exactly the supplied inputs, with the region field the resolved
canonical identifier of the supplied code. -/
theorem profile_report_roundtrip (s : Sys) (u f k t code : String)
    (h : Path) (hh : s.home = some h) (hcwd : s.cwd = h)
    (hw : (h ++ relConfig) ∉ s.failWrites) :
    ∃ pre, (report (profile u f k t code s).2.1).2.2
        = [Msg.reportContent
            (pre ++ (Profile.mk u f k t (identifier code)).profile_entry)] := by
  obtain ⟨hfiles, hcwd2, _h1, _h2⟩ := profile_step u f k t code s h hh hcwd hw
  refine ⟨contentOf (h ++ relConfig) s, ?_⟩
  simp [report, read, hcwd2, hfiles]

/-- A concrete state: process started from home `/h`, empty config file
present, no write faults. -/
def sysRT : Sys :=
  Sys.mk ["h"] (some ["h"])
    (fun q => if q = ["h", ".oci", "config"] then some "" else none) []

/-- Claim C2 witness: the round trip at a concrete state with region code
IAD, whose resolved identifier is us-ashburn-1. -/
theorem profile_report_roundtrip_witness :
    identifier "IAD" = "us-ashburn-1"
      ∧ (sysRT.home = some ["h"] ∧ sysRT.cwd = ["h"]
          ∧ (["h"] ++ relConfig) ∉ sysRT.failWrites)
      ∧ (∃ pre, (report (profile "u1" "f1" "k1" "t1" "IAD" sysRT).2.1).2.2
          = [Msg.reportContent
              (pre ++ (Profile.mk "u1" "f1" "k1" "t1"
                  (identifier "IAD")).profile_entry)]) :=
  ⟨rfl, ⟨rfl, rfl, by simp [sysRT]⟩,
    profile_report_roundtrip sysRT "u1" "f1" "k1" "t1" "IAD" ["h"] rfl rfl
      (by simp [sysRT])⟩

/-- Claim C7: the config state is append-only.  For each public operation
(profile, credentials, report) and every file, the previous content is a
prefix of the new content (nothing is ever truncated or rewritten in
place); and in the intended configuration two `profile` calls append their
two `[DEFAULT]` blocks one after the other. -/
theorem append_only :
    (∀ (s : Sys) (u f k t c : String) (q : Path),
        ∃ rest, contentOf q (profile u f k t c s).2.1 = contentOf q s ++ rest)
      ∧ (∀ (s : Sys) (u f k pp : String) (q : Path),
          ∃ rest,
            contentOf q (credentials u f k pp s).2.1 = contentOf q s ++ rest)
      ∧ (∀ (s : Sys) (q : Path),
          ∃ rest, contentOf q (report s).2.1 = contentOf q s ++ rest)
      ∧ (∀ (s : Sys) (u1 f1 k1 t1 c1 u2 f2 k2 t2 c2 : String) (h : Path),
          s.home = some h → s.cwd = h → (h ++ relConfig) ∉ s.failWrites →
          contentOf (h ++ relConfig)
              (profile u2 f2 k2 t2 c2 (profile u1 f1 k1 t1 c1 s).2.1).2.1
            = contentOf (h ++ relConfig) s
                ++ (Profile.mk u1 f1 k1 t1 (identifier c1)).profile_entry
                ++ (Profile.mk u2 f2 k2 t2 (identifier c2)).profile_entry) := by
  refine ⟨?_, ?_, ?_, ?_⟩
  · exact fun s u f k t c q => profile_extends u f k t c s q
  · intro s u f k pp q
    rw [credentials_eq_admin]
    exact admin_extends u f k pp s q
  · intro s q
    exact ⟨"", by simp [report]⟩
  · intro s u1 f1 k1 t1 c1 u2 f2 k2 t2 c2 h hh hcwd hw
    obtain ⟨hf1, hc1, hh1, hfw1⟩ := profile_step u1 f1 k1 t1 c1 s h hh hcwd hw
    obtain ⟨hf2, _, _, _⟩ :=
      profile_step u2 f2 k2 t2 c2 (profile u1 f1 k1 t1 c1 s).2.1 h hh1 hc1
        (by rw [hfw1]; exact hw)
    have h2 : contentOf (h ++ relConfig)
        (profile u2 f2 k2 t2 c2 (profile u1 f1 k1 t1 c1 s).2.1).2.1
          = contentOf (h ++ relConfig) (profile u1 f1 k1 t1 c1 s).2.1
              ++ (Profile.mk u2 f2 k2 t2 (identifier c2)).profile_entry := by
      unfold contentOf
      rw [hf2]
      rfl
    have h1 : contentOf (h ++ relConfig) (profile u1 f1 k1 t1 c1 s).2.1
        = contentOf (h ++ relConfig) s
            ++ (Profile.mk u1 f1 k1 t1 (identifier c1)).profile_entry := by
      unfold contentOf
      rw [hf1]
      rfl
    rw [h2, h1]

/-- Claim C7 witness: the double-append at a concrete state (the prefix
parts have no hypotheses; the two-block part is instantiated here). -/
theorem append_only_witness :
    sysRT.home = some ["h"] ∧ sysRT.cwd = ["h"]
      ∧ (["h"] ++ relConfig) ∉ sysRT.failWrites
      ∧ contentOf (["h"] ++ relConfig)
          (profile "u2" "f2" "k2" "t2" "IAD"
            (profile "u1" "f1" "k1" "t1" "IAD" sysRT).2.1).2.1
        = contentOf (["h"] ++ relConfig) sysRT
            ++ (Profile.mk "u1" "f1" "k1" "t1" (identifier "IAD")).profile_entry
            ++ (Profile.mk "u2" "f2" "k2" "t2"
                (identifier "IAD")).profile_entry :=
  ⟨rfl, rfl, by simp [sysRT],
    append_only.2.2.2 sysRT "u1" "f1" "k1" "t1" "IAD" "u2" "f2" "k2" "t2"
      "IAD" ["h"] rfl rfl (by simp [sysRT])⟩

/-- Claim C10: `profile` decides between the create branch and the
permission-normalization branch by testing the CWD-resolved relative path
`.oci/config`, while the append targets the home-resolved path; hence
whenever the current working directory differs from the home directory
there are states where `<home>/.oci/config` exists yet the create branch is
taken, and states where it is absent yet the create branch is skipped. -/
theorem profile_branch_tests_cwd (cwd home : Path) (hne : cwd ≠ home) :
    (∃ s : Sys, s.cwd = cwd ∧ s.home = some home
        ∧ (s.files (home ++ relConfig)).isSome = true
        ∧ profileCreates s = true)
      ∧ (∃ s : Sys, s.cwd = cwd ∧ s.home = some home
          ∧ s.files (home ++ relConfig) = none
          ∧ profileCreates s = false) := by
  have hpne : cwd ++ relConfig ≠ home ++ relConfig := fun he =>
    hne (List.append_cancel_right he)
  constructor
  · refine ⟨Sys.mk cwd (some home)
      (fun p => if p = home ++ relConfig then some "" else none) [],
      rfl, rfl, ?_, ?_⟩
    · simp
    · simp [profileCreates, hpne]
  · refine ⟨Sys.mk cwd (some home)
      (fun p => if p = cwd ++ relConfig then some "" else none) [],
      rfl, rfl, ?_, ?_⟩
    · simp [Ne.symm hpne]
    · simp [profileCreates]

/-- Claim C10 witness: the mismatch states at concrete distinct
directories. -/
theorem profile_branch_tests_cwd_witness :
    (["a"] : Path) ≠ ["b"]
      ∧ ((∃ s : Sys, s.cwd = ["a"] ∧ s.home = some ["b"]
            ∧ (s.files (["b"] ++ relConfig)).isSome = true
            ∧ profileCreates s = true)
        ∧ (∃ s : Sys, s.cwd = ["a"] ∧ s.home = some ["b"]
            ∧ s.files (["b"] ++ relConfig) = none
            ∧ profileCreates s = false)) :=
  ⟨by simp, profile_branch_tests_cwd ["a"] ["b"] (by simp)⟩

end OciConfigWriter
